import Mathlib

/-!
Verification of the documine browser-use runner and docling page-marker
service against their natural-language specification.

Shallow embedding of:
  - src/src/lib/quoting/agent/browser_use_runner.py
  - src/docling-service/main.py

Modelling conventions:
  - Python strings are Lean String (a list of unicode scalar values, which
    matches Python code points for the ASCII data handled here); str.lower()
    is modelled with Char.toLower, which agrees with Python on ASCII.
  - Python float premiums are modelled as exact rationals; every numeric
    value appearing in the claims (1200, 100, 0, 1/12 multiples rounded to
    2 places) is exactly representable as a double, so the rational model
    is faithful on those inputs.
  - Network I/O (requests.post) is modelled by explicit oracle records; a
    call that raises is an oracle response constructor.  Emission to stdout
    is modelled as lists of events returned by the functions.
-/

/-- Python substring test: needle in hay. -/
def strContains (hay needle : String) : Bool :=
  (List.range (hay.data.length + 1)).any
    (fun i => needle.data.isPrefixOf (hay.data.drop i))

/-- Python str.lower() (faithful on ASCII, which is all that occurs here). -/
def pyLower (s : String) : String :=
  (s.data.map Char.toLower).asString

/-- Python truthiness of an optional string (None and the empty string are falsy). -/
def pyTruthyStrOpt : Option String → Bool
  | none => false
  | some s => if s = "" then false else true

/-- Python str.isspace characters for the ASCII range. -/
def pyIsSpace (c : Char) : Bool :=
  c = ' ' || c = '\t' || c = '\n' || c = '\r' || c = '\x0b' || c = '\x0c'

/-- Python str.strip() with no argument: remove leading and trailing
whitespace (structurally recursive so that it evaluates in the kernel). -/
def pyStrip (s : String) : String :=
  ((((s.data.dropWhile pyIsSpace).reverse).dropWhile pyIsSpace).reverse).asString

/-- Python str.title() used on the carrier code (faithful on ASCII). -/
def pyTitleAux : List Char → Bool → List Char
  | [], _ => []
  | c :: rest, prevCased =>
    let cased := c.isAlpha
    (if cased then (if prevCased then c.toLower else c.toUpper) else c) :: pyTitleAux rest cased

def pyTitle (s : String) : String :=
  (pyTitleAux s.data false).asString

/-- Drop a prefix: some remainder iff the needle is a prefix. -/
def dropPre : List Char → List Char → Option (List Char)
  | [], s => some s
  | _ :: _, [] => none
  | n :: ns, c :: cs => if n = c then dropPre ns cs else none

/-- Python str.split(sep) for a non-empty separator, on char lists.  The
fuel is structural so that the function evaluates in the kernel; each step
consumes at least one subject character (the separator is non-empty), so
fuel of one more than the subject length never runs out and the fuel-zero
fallback is unreachable. -/
def pySplitAux (sep : List Char) : Nat → List Char → List Char → List (List Char)
  | 0, acc, s => [acc.reverse ++ s]
  | _ + 1, acc, [] => [acc.reverse]
  | fuel + 1, acc, c :: cs =>
    match dropPre sep (c :: cs) with
    | some rest => acc.reverse :: pySplitAux sep fuel [] rest
    | none => pySplitAux sep fuel (c :: acc) cs

/-- Python str.split(sep).  The empty separator raises in Python and does
not occur here; it returns the whole string unsplit in this model. -/
def pySplit (s sep : String) : List String :=
  match sep.data with
  | [] => [s]
  | _ :: _ => (pySplitAux sep.data (s.data.length + 1) [] s.data).map List.asString

/-! ## Error Classifier (browser_use_runner.py lines 738-754)

The except-block of run_browser_use categorizes the exception message by
the first matching keyword group, testing groups in a fixed order against
the lowercased message, and prefixes the category onto the emitted error. -/

def login_terms : List String :=
  ["login", "credential", "authentication", "password", "unauthorized"]

def captcha_terms : List String :=
  ["captcha", "challenge", "recaptcha", "hcaptcha"]

def element_terms : List String :=
  ["element not found", "selector", "form changed", "navigation failed"]

def timeout_terms : List String :=
  ["timeout", "timed out"]

def connection_terms : List String :=
  ["connection", "network", "unavailable", "503", "502"]

/-- Python: any(term in error_msg.lower() for term in terms). -/
def matchesAny (terms : List String) (lowered : String) : Bool :=
  terms.any (fun t => strContains lowered t)

/-- The error categorization chain of run_browser_use (lines 738-754):
first matching keyword group wins, category prefixed onto the message;
no match returns the message verbatim. -/
def categorize_error (error_msg : String) : String :=
  let m := pyLower error_msg
  if matchesAny login_terms m then "login failed: " ++ error_msg
  else if matchesAny captcha_terms m then "captcha detected: " ++ error_msg
  else if matchesAny element_terms m then "element not found: " ++ error_msg
  else if matchesAny timeout_terms m then "timeout: " ++ error_msg
  else if matchesAny connection_terms m then "connection failed: " ++ error_msg
  else error_msg

/-! ## Data model (browser_use_runner.py lines 401-431)

Credentials, client data and the session input read from stdin.  Python
dicts (property, auto, each driver) are modelled as ordered association
lists of key/value strings (Python dicts preserve insertion order, and
values are interpolated with str()). -/

structure Credentials where
  username : String
  password : String
  mfaCode : Option String

structure ClientPersonal where
  firstName : Option String
  lastName : Option String
  email : Option String
  phone : Option String
  dateOfBirth : Option String

structure ClientData where
  personal : Option ClientPersonal
  property : Option (List (String × String))
  auto : Option (List (String × String))
  drivers : Option (List (List (String × String)))

structure InputData where
  credentials : Credentials
  clientData : ClientData
  sessionId : String
  carrierCode : String

/-- Python dict truthiness of the personal sub-dict: a key present with any
value makes the dict non-empty, hence truthy. -/
def personalTruthy : Option ClientPersonal → Bool
  | none => false
  | some p =>
    p.firstName.isSome || p.lastName.isSome || p.email.isSome ||
      p.phone.isSome || p.dateOfBirth.isSome

/-- Empty personal dict, the default of client_data.get with default value. -/
def emptyPersonal : ClientPersonal := ⟨none, none, none, none, none⟩

/-! ## Task Prompt Compiler (browser_use_runner.py lines 500-583)

build_navigation_task compiles carrier, portal URL, client data and the
credentials into the numbered instruction text for the agent.  Only the
username is interpolated from the credentials; the password is referenced
as provided and the MFA code is never read. -/

/-- Lines for one dict section: - key: value per item. -/
def dictLines (d : List (String × String)) : List String :=
  d.map (fun kv => "- " ++ kv.1 ++ ": " ++ kv.2)

/-- Lines for the numbered driver blocks (lines 560-566). -/
def driverLines : List (List (String × String)) → Nat → List String
  | [], _ => []
  | d :: rest, i =>
    ("  Driver " ++ toString i ++ ":") ::
      (d.map (fun kv => "    - " ++ kv.1 ++ ": " ++ kv.2) ++ driverLines rest (i + 1))

def build_navigation_task (carrier : String) (portal_url : String)
    (client_data : ClientData) (credentials : Credentials) : String :=
  let personal := client_data.personal.getD emptyPersonal
  let nameRaw := pyStrip ((personal.firstName.getD "") ++ " " ++ (personal.lastName.getD ""))
  let client_name := if nameRaw = "" then "the insured" else nameRaw
  let task_lines : List String :=
    ["You are filling out an insurance quote form on " ++ pyTitle carrier ++ " portal.",
     "",
     "IMPORTANT: Do not share or display credentials in any output.",
     "",
     "CAPTCHA HANDLING: If you encounter a CAPTCHA, use the \x27Solve any CAPTCHA on the page\x27 action.",
     "",
     "STEPS:",
     "1. Navigate to " ++ portal_url,
     "2. Login with username \x27" ++ credentials.username ++ "\x27 and password (provided)",
     "3. If CAPTCHA appears, use the solve_captcha action",
     "4. Navigate to the new quote or get a quote section",
     "5. Fill out the insurance quote form for client: " ++ client_name,
     "",
     "CLIENT INFORMATION TO USE:"]
  let task_lines := task_lines ++
    (if personalTruthy client_data.personal then
      (if (personal.firstName.getD "") ≠ "" then
        ["- First Name: " ++ personal.firstName.getD ""] else []) ++
      (if (personal.lastName.getD "") ≠ "" then
        ["- Last Name: " ++ personal.lastName.getD ""] else []) ++
      (if (personal.email.getD "") ≠ "" then
        ["- Email: " ++ personal.email.getD ""] else []) ++
      (if (personal.phone.getD "") ≠ "" then
        ["- Phone: " ++ personal.phone.getD ""] else []) ++
      (if (personal.dateOfBirth.getD "") ≠ "" then
        ["- Date of Birth: " ++ personal.dateOfBirth.getD ""] else [])
    else [])
  let task_lines := task_lines ++
    (match client_data.property with
     | some props => if props ≠ [] then ["", "PROPERTY INFORMATION:"] ++ dictLines props else []
     | none => [])
  let task_lines := task_lines ++
    (match client_data.auto with
     | some a => if a ≠ [] then ["", "AUTO/VEHICLE INFORMATION:"] ++ dictLines a else []
     | none => [])
  let task_lines := task_lines ++
    (match client_data.drivers with
     | some ds => if ds ≠ [] then ["", "DRIVER INFORMATION:"] ++ driverLines ds 1 else []
     | none => [])
  let task_lines := task_lines ++
    ["",
     "FINAL STEPS:",
     "6. Complete all required form pages",
     "7. Navigate through to the quote results page",
     "8. Extract and report the premium amount, coverages, and deductibles",
     "",
     "When you reach the quote results, report the following:",
     "- Annual premium amount",
     "- Monthly premium amount (if shown)",
     "- Coverage limits",
     "- Deductible amounts"]
  String.intercalate "\n" task_lines


/-! ## Quote Extraction (browser_use_runner.py lines 590-670)

extract_quote_data scans the agent free text with ordered lists of regular
expressions.  The patterns only use literals, greedy ?/*/+ quantifiers
over the single-character classes \d, \s, [\d,] and [:\s], one alternation
of two literals, and a single capture group per pattern, so they are
embedded in a small backtracking matcher (quantified subexpressions are
single-character classes, which keeps the matcher structurally recursive
and hence evaluable in the kernel).  Alternative remainders are produced
in the exact priority order of the Python re engine: leftmost start
position first, greedy-first within a position.  re.IGNORECASE is
modelled by lowercasing the subject text; the captured group consists of
digits, commas and dots, which lowercasing fixes.

Python float values are modelled by PyNum, an exact fraction with the
denominator a power of ten times the divisor 12; every numeric value the
claims mention (1200, 100, 0) and the 1200/12 derivation are exactly
representable as doubles, so the exact model is faithful on them. -/

inductive RE where
  | eps
  | cls (p : Char → Bool)
  | seq (a b : RE)
  | alt (a b : RE)
  | starCls (p : Char → Bool)

/-- Greedy optional: try matching, then the empty alternative. -/
def REopt (a : RE) : RE := .alt a .eps

/-- Greedy plus over a single-character class. -/
def REplusCls (p : Char → Bool) : RE := .seq (.cls p) (.starCls p)

def REchar (c : Char) : RE := .cls (fun x => x = c)

/-- Literal string. -/
def REstr (s : String) : RE := s.data.foldr (fun c r => .seq (REchar c) r) .eps

/-- Right-nested sequence of a list of regexes. -/
def REcat (l : List RE) : RE := l.foldr .seq .eps

/-- Remainders after a greedy class star, longest match first. -/
def clsStarMatches (p : Char → Bool) : List Char → List (List Char)
  | [] => [[]]
  | c :: rest => (if p c then clsStarMatches p rest else []) ++ [c :: rest]

/-- All remainders of the subject after a match of the regex, listed in the
backtracking priority order of the Python re engine: for an alternation the
left branch first, for a greedy quantifier longer matches first. -/
def REmatches : RE → List Char → List (List Char)
  | .eps, s => [s]
  | .cls _, [] => []
  | .cls p, c :: rest => if p c then [rest] else []
  | .seq a b, s => (REmatches a s).flatMap (fun s2 => REmatches b s2)
  | .alt a b, s => REmatches a s ++ REmatches b s
  | .starCls p, s => clsStarMatches p s

/-- A search pattern with exactly one capture group: pre ( cap ) post. -/
structure CapPattern where
  pre : RE
  cap : RE
  post : RE

def firstSome : List (Option α) → Option α
  | [] => none
  | some a :: _ => some a
  | none :: rest => firstSome rest

/-- Match the pattern anchored at the start of the suffix, returning the
text captured by the group of the first full match in priority order. -/
def searchCapAt (pat : CapPattern) (s : List Char) : Option (List Char) :=
  firstSome ((REmatches pat.pre s).map (fun r1 =>
    firstSome ((REmatches pat.cap r1).map (fun r2 =>
      if (REmatches pat.post r2).isEmpty then none
      else some (r1.take (r1.length - r2.length))))))

/-- Python re.search: try start positions left to right, and at the first
position that allows a match return the group captured by the match the
backtracking engine prefers. -/
def reSearchCapture (pat : CapPattern) (text : List Char) : Option (List Char) :=
  firstSome ((List.range (text.length + 1)).map (fun i =>
    searchCapAt pat (text.drop i)))

/-- The class [\d,]. -/
def isDigitComma (c : Char) : Bool := c.isDigit || c = ','

/-- The class [:\s]. -/
def isColonSpace (c : Char) : Bool := c = ':' || pyIsSpace c

/-- The capture group ([\d,]+\.?\d*) shared by all premium patterns. -/
def numGroup : RE :=
  REcat [REplusCls isDigitComma, REopt (REchar '.'), .starCls Char.isDigit]

/-- \s+ -/
def wsPlus : RE := REplusCls pyIsSpace

/-- annual(?:\s+premium)?[:\s]*\$?([\d,]+\.?\d*)  (line 625) -/
def annual_pattern1 : CapPattern :=
  ⟨REcat [REstr "annual", REopt (.seq wsPlus (REstr "premium")),
          .starCls isColonSpace, REopt (REchar '$')],
   numGroup, .eps⟩

/-- yearly(?:\s+premium)?[:\s]*\$?([\d,]+\.?\d*)  (line 626) -/
def annual_pattern2 : CapPattern :=
  ⟨REcat [REstr "yearly", REopt (.seq wsPlus (REstr "premium")),
          .starCls isColonSpace, REopt (REchar '$')],
   numGroup, .eps⟩

/-- per\s+year[:\s]*\$?([\d,]+\.?\d*)  (line 627) -/
def annual_pattern3 : CapPattern :=
  ⟨REcat [REstr "per", wsPlus, REstr "year", .starCls isColonSpace, REopt (REchar '$')],
   numGroup, .eps⟩

/-- \$?([\d,]+\.?\d*)\s*(?:per\s+)?(?:year|annually)  (line 628) -/
def annual_pattern4 : CapPattern :=
  ⟨REopt (REchar '$'), numGroup,
   REcat [.starCls pyIsSpace, REopt (.seq (REstr "per") wsPlus),
          .alt (REstr "year") (REstr "annually")]⟩

/-- monthly(?:\s+premium)?[:\s]*\$?([\d,]+\.?\d*)  (line 642) -/
def monthly_pattern1 : CapPattern :=
  ⟨REcat [REstr "monthly", REopt (.seq wsPlus (REstr "premium")),
          .starCls isColonSpace, REopt (REchar '$')],
   numGroup, .eps⟩

/-- per\s+month[:\s]*\$?([\d,]+\.?\d*)  (line 643) -/
def monthly_pattern2 : CapPattern :=
  ⟨REcat [REstr "per", wsPlus, REstr "month", .starCls isColonSpace, REopt (REchar '$')],
   numGroup, .eps⟩

/-- \$?([\d,]+\.?\d*)\s*(?:per\s+)?month  (line 644) -/
def monthly_pattern3 : CapPattern :=
  ⟨REopt (REchar '$'), numGroup,
   REcat [.starCls pyIsSpace, REopt (.seq (REstr "per") wsPlus), REstr "month"]⟩

def annual_patterns : List CapPattern :=
  [annual_pattern1, annual_pattern2, annual_pattern3, annual_pattern4]

def monthly_patterns : List CapPattern :=
  [monthly_pattern1, monthly_pattern2, monthly_pattern3]

/-- An exact fraction num / den (den positive by construction), standing in
for a Python float.  Kept unreduced so that all arithmetic on it evaluates
inside the kernel. -/
structure PyNum where
  num : Int
  den : Nat
  deriving Repr, DecidableEq

/-- The rational value of a PyNum. -/
def PyNum.toRat (x : PyNum) : ℚ := (x.num : ℚ) / (x.den : ℚ)

/-- Digits to a natural number. -/
def digitsToNat (cs : List Char) : Nat :=
  cs.foldl (fun acc c => acc * 10 + (c.toNat - 48)) 0

/-- Python float() restricted to the digit/dot strings that reach it here
(a capture of [\d,]+\.?\d* with the commas removed). -/
def pyFloat (cs : List Char) : Option PyNum :=
  if cs.isEmpty then none
  else if !(cs.all (fun c => c.isDigit || c = '.')) then none
  else if 1 < (cs.filter (fun c => c = '.')).length then none
  else if !(cs.any Char.isDigit) then none
  else
    match cs.splitOn '.' with
    | [ip] => some ⟨(digitsToNat ip : Int), 1⟩
    | [ip, fp] => some ⟨(digitsToNat (ip ++ fp) : Int), 10 ^ fp.length⟩
    | _ => none

/-- The pattern loops of extract_quote_data (lines 631-654): try patterns
in order; on a regex match whose captured group (commas stripped) parses as
a float, accept it; on a parse failure fall through to the next pattern. -/
def find_premium (patterns : List CapPattern) (lowered : List Char) : Option PyNum :=
  match patterns with
  | [] => none
  | p :: rest =>
    match reSearchCapture p lowered with
    | some cap =>
      match pyFloat (cap.filter (fun c => !(c = ','))) with
      | some v => some v
      | none => find_premium rest lowered
    | none => find_premium rest lowered

/-- Python truthiness of an optional float (None and 0.0 are falsy). -/
def pyTruthyNum : Option PyNum → Bool
  | none => false
  | some x => !(x.num == 0)

/-- Round p / q (q positive) half to even, the rounding mode of Python
round(), computed with integer arithmetic only. -/
def roundHalfEvenInt (p : Int) (q : Nat) : Int :=
  let f : Int := Int.fdiv p (q : Int)
  let r2 : Int := 2 * (p - f * (q : Int))
  if r2 < (q : Int) then f
  else if (q : Int) < r2 then f + 1
  else if f % 2 = 0 then f else f + 1

/-- Python round(x / d, 2) for a PyNum x and positive integer divisor d,
as an exact rational rounding (the wording of the spec); the float
double-rounding Python performs agrees with it on every value the claims
mention. -/
def roundDiv2 (x : PyNum) (d : Nat) : PyNum :=
  ⟨roundHalfEvenInt (x.num * 100) (x.den * d), 100⟩

/-- The structured quote record built at lines 660-670.  The extractedAt
timestamp is environment input and is left out of the model; coverages and
deductibles are always returned empty by this version. -/
structure QuoteRecord where
  carrierCode : String
  premiumAnnual : Option PyNum
  premiumMonthly : Option PyNum
  coverages : List (String × String)
  deductibles : List (String × String)
  agentResponse : Option String
  deriving Repr, DecidableEq

/-- extract_quote_data (lines 590-670).  The result argument is the final
agent text after str(result) if result else "" (a falsy result becomes the
empty string).  The monthly derivation at lines 656-658 is gated on Python
truthiness: a parsed annual of 0.0 is falsy and suppresses it, a parsed
monthly of 0.0 is falsy and is overridden by it. -/
def extract_quote_data (result_text : String) (carrier : String) : QuoteRecord :=
  let lowered := result_text.data.map Char.toLower
  let premium_annual := find_premium annual_patterns lowered
  let premium_monthly0 := find_premium monthly_patterns lowered
  let premium_monthly :=
    if pyTruthyNum premium_annual && !(pyTruthyNum premium_monthly0) then
      some (roundDiv2 ((premium_annual.getD ⟨0, 1⟩)) 12)
    else premium_monthly0
  { carrierCode := carrier
    premiumAnnual := premium_annual
    premiumMonthly := premium_monthly
    coverages := []
    deductibles := []
    agentResponse :=
      if result_text = "" then none else some ((result_text.data.take 2000).asString) }

/-! ## CAPTCHA Resolution Client (browser_use_runner.py lines 63-281)

The three CapSolver flows solve_recaptcha_v2 (lines 70-148),
solve_recaptcha_v3 (lines 151-216) and solve_turnstile (lines 219-281).
The network is an oracle: the createTask response and, per polling
attempt, the getTaskResult response; a requests call that raises is the
raise constructor (the source catches every exception of the try-block
and returns None).  Each flow returns the token together with the number
of network requests made, the sleeps performed (asyncio.sleep seconds,
one per poll iteration, before its request) and the progress events it
emitted.  The global CAPSOLVER_API_KEY read from the environment is an
explicit Option String argument. -/

/-- A createTask JSON response: errorId via .get("errorId", 0),
errorDescription via .get("errorDescription"), taskId via .get("taskId"). -/
structure CreateResp where
  errorId : Int
  errorDescription : Option String
  taskId : Option String

/-- A getTaskResult JSON response: status via .get("status"),
gRecaptchaResponse and token read from the solution object. -/
structure PollResp where
  status : Option String
  gRecaptchaResponse : Option String
  solutionToken : Option String

inductive NetResp (α : Type) where
  | ok (val : α)
  | raise (msg : String)

/-- The network oracle of one flow: the createTask response and the
getTaskResult response of each polling attempt. -/
structure CapsolverNet where
  createTask : NetResp CreateResp
  getTaskResult : Nat → NetResp PollResp

/-- Observable outcome of one flow: the returned token, the number of
requests.post calls made, the sleeps performed and the progress emitted. -/
structure SolveOutcome where
  token : Option String
  requests : Nat
  sleeps : List Nat
  events : List (String × Nat)
  deriving Repr, DecidableEq

/-- The polling loop shared in shape by the three flows (lines 114-144,
195-213, 260-278): sleep 2 seconds, post getTaskResult; on status "ready"
with a truthy token field return it; on status "failed" return no token
immediately; otherwise continue, up to the remaining attempt budget; a
raising request aborts with no token (caught by the enclosing try).  The
parameters carry the flow-specific token field and progress emissions. -/
def capsolver_poll (tokOf : PollResp → Option String)
    (readyEv failedEv timeoutEv : List (String × Nat))
    (raiseEv : String → List (String × Nat))
    (progressAt : Nat → List (String × Nat))
    (net : CapsolverNet) : Nat → Nat → SolveOutcome
  | _, 0 => ⟨none, 0, [], timeoutEv⟩
  | i, remaining + 1 =>
    match net.getTaskResult i with
    | .raise msg => ⟨none, 1, [2], raiseEv msg⟩
    | .ok pr =>
      if (pr.status == some "ready") && pyTruthyStrOpt (tokOf pr) then
        ⟨tokOf pr, 1, [2], readyEv⟩
      else if pr.status == some "failed" then
        ⟨none, 1, [2], failedEv⟩
      else
        let rest := capsolver_poll tokOf readyEv failedEv timeoutEv raiseEv progressAt
          net (i + 1) remaining
        ⟨rest.token, rest.requests + 1, 2 :: rest.sleeps, progressAt i ++ rest.events⟩

/-- solve_recaptcha_v2 (lines 70-148): fail fast without the provider
credential, create a ReCaptchaV2TaskProxyLess task, poll up to 60 times
for solution.gRecaptchaResponse, with progress every 5th iteration. -/
def solve_recaptcha_v2 (apiKey : Option String) (page_url site_key : String)
    (net : CapsolverNet) : SolveOutcome :=
  if !(pyTruthyStrOpt apiKey) then
    ⟨none, 0, [], [("CAPTCHA detected but CAPSOLVER_API_KEY not set", 40)]⟩
  else
    let ev0 : List (String × Nat) := [("Solving reCAPTCHA v2...", 42)]
    match net.createTask with
    | .raise msg =>
      ⟨none, 1, [], ev0 ++ [("CAPTCHA solve error: " ++ msg, 42)]⟩
    | .ok cr =>
      if cr.errorId ≠ 0 then
        ⟨none, 1, [],
         ev0 ++ [("CapSolver error: " ++ cr.errorDescription.getD "Unknown", 42)]⟩
      else if !(pyTruthyStrOpt cr.taskId) then
        ⟨none, 1, [], ev0⟩
      else
        let l := capsolver_poll (fun pr => pr.gRecaptchaResponse)
          [("reCAPTCHA v2 solved successfully", 45)]
          [("reCAPTCHA solving failed", 42)]
          [("reCAPTCHA solving timed out", 42)]
          (fun msg => [("CAPTCHA solve error: " ++ msg, 42)])
          (fun i => if i % 5 = 0 then
            [("Solving reCAPTCHA... (" ++ toString (i * 2) ++ "s)", 42 + i / 10)] else [])
          net 0 60
        ⟨l.token, l.requests + 1, l.sleeps, ev0 ++ l.events⟩

/-- solve_recaptcha_v3 (lines 151-216): fail fast (silently) without the
provider credential, create a ReCaptchaV3TaskProxyLess task (pageAction
and minScore 0.7 in the payload), poll up to 30 times for
solution.gRecaptchaResponse; no progress during polling and silent
failure paths. -/
def solve_recaptcha_v3 (apiKey : Option String) (page_url site_key action : String)
    (net : CapsolverNet) : SolveOutcome :=
  if !(pyTruthyStrOpt apiKey) then
    ⟨none, 0, [], []⟩
  else
    let ev0 : List (String × Nat) := [("Solving reCAPTCHA v3...", 42)]
    match net.createTask with
    | .raise _ => ⟨none, 1, [], ev0⟩
    | .ok cr =>
      if cr.errorId ≠ 0 then
        ⟨none, 1, [], ev0⟩
      else if !(pyTruthyStrOpt cr.taskId) then
        ⟨none, 1, [], ev0⟩
      else
        let l := capsolver_poll (fun pr => pr.gRecaptchaResponse)
          [("reCAPTCHA v3 solved successfully", 45)]
          [] [] (fun _ => []) (fun _ => [])
          net 0 30
        ⟨l.token, l.requests + 1, l.sleeps, ev0 ++ l.events⟩

/-- solve_turnstile (lines 219-281): fail fast (silently) without the
provider credential, create an AntiTurnstileTaskProxyLess task, poll up
to 60 times for solution.token; no progress during polling and silent
failure paths. -/
def solve_turnstile (apiKey : Option String) (page_url site_key : String)
    (net : CapsolverNet) : SolveOutcome :=
  if !(pyTruthyStrOpt apiKey) then
    ⟨none, 0, [], []⟩
  else
    let ev0 : List (String × Nat) := [("Solving Cloudflare Turnstile...", 42)]
    match net.createTask with
    | .raise _ => ⟨none, 1, [], ev0⟩
    | .ok cr =>
      if cr.errorId ≠ 0 then
        ⟨none, 1, [], ev0⟩
      else if !(pyTruthyStrOpt cr.taskId) then
        ⟨none, 1, [], ev0⟩
      else
        let l := capsolver_poll (fun pr => pr.solutionToken)
          [("Turnstile solved successfully", 45)]
          [] [] (fun _ => []) (fun _ => [])
          net 0 60
        ⟨l.token, l.requests + 1, l.sleeps, ev0 ++ l.events⟩

/-- A getTaskResult response on which the polling loop keeps polling:
it does not raise, is not status "failed", and is not status "ready"
carrying a truthy token in the flow-specific field. -/
def pollContinues (tokOf : PollResp → Option String) : NetResp PollResp → Bool
  | .raise _ => false
  | .ok pr =>
    !((pr.status == some "ready") && pyTruthyStrOpt (tokOf pr)) &&
      !(pr.status == some "failed")

/-! ## CAPTCHA Detector and Injector (browser_use_runner.py lines 284-394)

solve_captcha probes the page with four selector queries and cascades
through them in source order.  The page is modelled through exactly those
probes: for each selector query, whether an element matched and, if so,
the value of the attribute the code then reads (None when the attribute
is absent).  Token injection is a page side effect with no bearing on the
returned ActionResult and is not modelled beyond the result message.  The
whole body is wrapped in a try/except in the source; the model is total,
so the except path (failure carrying the exception text) has no inhabitant
here. -/

structure Page where
  url : String
  /-- query .g-recaptcha, [data-sitekey]:not(.cf-turnstile) and then
  get_attribute("data-sitekey"): some attr iff an element matched. -/
  recaptcha_v2 : Option (Option String)
  /-- query script[src*="recaptcha/api.js?render="] and then
  get_attribute("src"). -/
  recaptcha_v3_src : Option (Option String)
  /-- query .cf-turnstile, [data-sitekey][class*="turnstile"] and then
  get_attribute("data-sitekey"). -/
  turnstile : Option (Option String)
  /-- query .h-captcha, [data-sitekey][class*="hcaptcha"]: did it match. -/
  hcaptcha : Bool

/-- A call into the CAPTCHA Resolution Client recorded by the detector. -/
inductive SolverCall where
  | v2 (page_url site_key : String)
  | v3 (page_url site_key action : String)
  | turnstile (page_url site_key : String)
  deriving Repr, DecidableEq

/-- The solver environment available to the detector: the provider
credential and the network oracle each flow would see. -/
structure CapEnv where
  apiKey : Option String
  v2net : CapsolverNet
  v3net : CapsolverNet
  tsnet : CapsolverNet

/-- The result object returned by the controller action. -/
structure ActionResult where
  success : Bool
  extracted_content : Option String
  error : Option String
  deriving Repr, DecidableEq

/-- Stage 4 of the cascade (lines 376-388): known unsupported hCaptcha
markers give an explicit failure; otherwise no CAPTCHA was detected. -/
def solve_captcha_hcaptcha_stage (page : Page) : ActionResult × List SolverCall :=
  if page.hcaptcha then
    (⟨false, none,
      some "hCaptcha detected but not yet supported. Manual intervention may be needed."⟩, [])
  else
    (⟨true, some "No CAPTCHA detected on this page", none⟩, [])

/-- Stage 3 (lines 349-373): a Turnstile marker with a truthy site key is
resolved and answered in both token outcomes; a marker without a truthy
site key falls through to the hCaptcha stage. -/
def solve_captcha_turnstile_stage (page : Page) (env : CapEnv) :
    ActionResult × List SolverCall :=
  match page.turnstile with
  | some attr =>
    if pyTruthyStrOpt attr then
      let site_key := attr.getD ""
      let sol := solve_turnstile env.apiKey page.url site_key env.tsnet
      if pyTruthyStrOpt sol.token then
        (⟨true, some "Cloudflare Turnstile solved and token injected", none⟩,
         [.turnstile page.url site_key])
      else
        (⟨false, none, some "Failed to solve Turnstile"⟩, [.turnstile page.url site_key])
    else solve_captcha_hcaptcha_stage page
  | none => solve_captcha_hcaptcha_stage page

/-- The site key extraction of line 335:
src.split("render=")[1].split("&")[0] (guarded by "render=" in src). -/
def extractRenderKey (src : String) : String :=
  (pySplit ((pySplit src "render=").getD 1 "") "&").getD 0 ""

/-- Stage 2 (lines 331-346): a reCAPTCHA v3 script whose truthy src
contains "render=" has its site key extracted from the query string; the
scored flow is invoked, but only a truthy token returns - on a failed
solve the cascade falls through to the Turnstile stage (there is no else
branch at line 338). -/
def solve_captcha_v3_stage (page : Page) (env : CapEnv) :
    ActionResult × List SolverCall :=
  match page.recaptcha_v3_src with
  | some srcAttr =>
    if pyTruthyStrOpt srcAttr && strContains (srcAttr.getD "") "render=" then
      let src := srcAttr.getD ""
      let site_key := extractRenderKey src
      let sol := solve_recaptcha_v3 env.apiKey page.url site_key "submit" env.v3net
      if pyTruthyStrOpt sol.token then
        (⟨true, some "reCAPTCHA v3 solved, token stored in window.captchaToken", none⟩,
         [.v3 page.url site_key "submit"])
      else
        let rest := solve_captcha_turnstile_stage page env
        (rest.1, .v3 page.url site_key "submit" :: rest.2)
    else solve_captcha_turnstile_stage page env
  | none => solve_captcha_turnstile_stage page env

/-- solve_captcha (lines 284-394), stage 1 first (lines 299-328): a
checkbox/invisible reCAPTCHA v2 marker with a truthy data-sitekey is
resolved and answered in both token outcomes; a marker without a truthy
site key falls through to the v3 stage. -/
def solve_captcha (page : Page) (env : CapEnv) : ActionResult × List SolverCall :=
  match page.recaptcha_v2 with
  | some attr =>
    if pyTruthyStrOpt attr then
      let site_key := attr.getD ""
      let sol := solve_recaptcha_v2 env.apiKey page.url site_key env.v2net
      if pyTruthyStrOpt sol.token then
        (⟨true, some "reCAPTCHA v2 solved and token injected", none⟩,
         [.v2 page.url site_key])
      else
        (⟨false, none, some "Failed to solve reCAPTCHA v2"⟩, [.v2 page.url site_key])
    else solve_captcha_v3_stage page env
  | none => solve_captcha_v3_stage page env

/-! ## Page-marker injection (docling-service/main.py lines 194-251)

inject_page_markers replaces the Docling page-break placeholders with
"--- PAGE N ---" markers, records each marker position in the final
markdown, and returns the page count.  Python str.split(sep) on the
(non-empty) placeholder is modelled with a structural split; "\n\n".join
is modelled by joinParts. -/

structure PageMarker where
  page_number : Nat
  start_index : Nat
  end_index : Nat
  deriving Repr, DecidableEq

/-- Python sep.join(parts) for sep = "\n\n". -/
def joinParts : List String → String
  | [] => ""
  | [p] => p
  | p :: q :: rest => p ++ "\n\n" ++ joinParts (q :: rest)

/-- The marker text for page n. -/
def pageMarkerStr (n : Nat) : String := "--- PAGE " ++ toString n ++ " ---"

/-- The part built for one page (lines 240-243): the marker, followed by
the stripped page content when that is non-empty. -/
def inject_part (page_num : Nat) (page_content : String) : String :=
  if pyStrip page_content ≠ "" then
    pageMarkerStr page_num ++ "\n\n" ++ pyStrip page_content
  else pageMarkerStr page_num

/-- The loop of inject_page_markers (main.py lines 226-246): one part and
one recorded marker per page, the marker recorded at the running character
index, the index advanced by the part length plus the two separator
newlines. -/
def inject_page_markers_loop : List String → Nat → Nat → List String × List PageMarker
  | [], _, _ => ([], [])
  | page_content :: rest, page_num, current_index =>
    let mk : PageMarker :=
      ⟨page_num, current_index, current_index + (pageMarkerStr page_num).length⟩
    let part := inject_part page_num page_content
    let r := inject_page_markers_loop rest (page_num + 1) (current_index + part.length + 2)
    (part :: r.1, mk :: r.2)

/-- inject_page_markers (main.py lines 194-251): split on the placeholder;
a single-page document gets a leading PAGE 1 marker and one recorded
marker; otherwise every page becomes a marker-led part and the parts are
joined with blank lines. -/
def inject_page_markers (markdown placeholder : String) :
    String × List PageMarker × Nat :=
  let pages := pySplit markdown placeholder
  if pages.length = 1 then
    let marker := "--- PAGE 1 ---\n\n"
    (marker ++ pyStrip (pages.headD ""),
     [⟨1, 0, marker.length - 1⟩], 1)
  else
    let r := inject_page_markers_loop pages 1 0
    (joinParts r.1, r.2, pages.length)

/-- Characters i, i+1, ..., i+len-1 of a string. -/
def sliceChars (s : String) (i len : Nat) : List Char :=
  (s.data.drop i).take len

/-! ## Process Protocol Layer and Agent Execution Supervisor
(browser_use_runner.py lines 437-475, 677-754, 757-786, 789-864)

The stdout protocol is modelled as a list of events.  The external agent
run (agent.run()) is a black box: it contributes a list of progress emissions
made by the controller actions during the run (those actions only ever
call emit_progress) and either a final free-text result or an exception
message.  The ANTHROPIC_API_KEY check of get_llm is an Except argument.
read_input_from_stdin is modelled on the outcome of Python json parsing
and field validation of the raw stdin text, which is environment input. -/

inductive Event where
  | progress (step : String) (pct : Nat)
  | result (success : Bool) (data : Option QuoteRecord) (error : Option String)
  deriving Repr, DecidableEq

def isResult : Event → Bool
  | .result _ _ _ => true
  | .progress _ _ => false

/-- What one agent.run() call contributes: progress emitted through the
controller actions while it runs, then a final text or an exception. -/
structure AgentRun where
  emitted : List (String × Nat)
  outcome : Except String String

/-- run_browser_use (lines 677-754): the fixed milestone sequence, the
agent run, extraction and the single result emission; on an agent
exception the classified error is emitted instead. -/
def run_browser_use (carrier portal_url : String) (input_data : InputData)
    (llm : Except String Unit) (agent : AgentRun) : List Event :=
  [.progress "Initializing Browser Use agent" 5] ++
  match llm with
  | .error e => [.result false none (some e)]
  | .ok _ =>
    let task := build_navigation_task carrier portal_url
      input_data.clientData input_data.credentials
    [.progress "Building navigation task" 10,
     .progress "Starting browser automation" 15,
     .progress "Navigating to carrier portal" 25,
     .progress "Logging into portal" 35,
     .progress "Filling quote form" 50] ++
    (agent.emitted.map (fun p => .progress p.1 p.2)) ++
    match agent.outcome with
    | .ok result_text =>
      [.progress "Extracting quote data" 85,
       .progress "Quote extraction complete" 100,
       .result true (some (extract_quote_data result_text carrier)) none]
    | .error msg => [.result false none (some (categorize_error msg))]

/-- The possible outcomes of reading and validating stdin (lines 757-786). -/
inductive StdinData where
  | empty
  | invalidJson (e : String)
  | missingCredentials
  | missingClientData
  | valid (d : InputData)

/-- read_input_from_stdin: the events it emits and the parsed input. -/
def read_input_from_stdin : StdinData → List Event × Option InputData
  | .empty => ([.result false none (some "No input received on stdin")], none)
  | .invalidJson e => ([.result false none (some ("Invalid JSON input: " ++ e))], none)
  | .missingCredentials =>
    ([.result false none (some "Missing \x27credentials\x27 in input")], none)
  | .missingClientData =>
    ([.result false none (some "Missing \x27clientData\x27 in input")], none)
  | .valid d => ([], some d)

/-- main (lines 789-864): the CAPTCHA-solver startup progress line, stdin
reading (emitting a failure result and exiting 1 on invalid input), then
the supervised run (exit 0).  The KeyboardInterrupt path (exit 130) is an
external signal and has no inhabitant in this model; the unexpected
top-level exception path is unreachable because run_browser_use catches
the agent exception itself. -/
def main_run (carrier portal_url : String) (capsolver_key : Option String)
    (stdin : StdinData) (llm : Except String Unit) (agent : AgentRun) :
    List Event × Nat :=
  let startup :=
    if pyTruthyStrOpt capsolver_key then
      [Event.progress "CAPTCHA solver enabled (CapSolver)" 0]
    else
      [Event.progress "CAPTCHA solver not configured (set CAPSOLVER_API_KEY)" 0]
  let r := read_input_from_stdin stdin
  match r.2 with
  | none => (startup ++ r.1, 1)
  | some d => (startup ++ run_browser_use carrier portal_url d llm agent, 0)

/-- Specification of the polling behavior of one resolution flow, stated
in the words of the spec (claim C7): once a solve task is created
successfully, the flow sleeps a fixed 2 seconds before each poll, makes at
most the attempt budget of polls (plus the one create request); a "ready"
response with a truthy flow-specific token field ends polling with that
token; a "failed" response ends polling immediately with no token; and a
full budget of continuing responses ends with no token. -/
def PollFlowSpec (flow : CapsolverNet → SolveOutcome)
    (tokOf : PollResp → Option String) (maxAttempts : Nat) : Prop :=
  ∀ net cr, net.createTask = .ok cr → cr.errorId = 0 →
    pyTruthyStrOpt cr.taskId = true →
    (((flow net).sleeps.length ≤ maxAttempts) ∧
     (∀ s ∈ (flow net).sleeps, s = 2) ∧
     (flow net).requests = (flow net).sleeps.length + 1) ∧
    (∀ j pr, j < maxAttempts →
      (∀ k, k < j → pollContinues tokOf (net.getTaskResult k) = true) →
      net.getTaskResult j = .ok pr →
      (((pr.status == some "ready") = true → pyTruthyStrOpt (tokOf pr) = true →
        (flow net).token = tokOf pr ∧ (flow net).sleeps.length = j + 1) ∧
       ((pr.status == some "failed") = true →
        (flow net).token = none ∧ (flow net).sleeps.length = j + 1))) ∧
    ((∀ k, k < maxAttempts → pollContinues tokOf (net.getTaskResult k) = true) →
      (flow net).token = none ∧ (flow net).sleeps.length = maxAttempts)

/-! ## Theorems -/

theorem filter_isResult_map_progress (l : List (String × Nat)) :
    (l.map (fun p => Event.progress p.1 p.2)).filter isResult = [] := by
  induction l with
  | nil => rfl
  | cons a t ih => simpa [isResult] using ih

theorem trace_shape_spec (pre : List Event) (r : Event)
    (hpre : pre.filter isResult = []) (hr : isResult r = true) :
    (((pre ++ [r]).filter isResult).length = 1) ∧
    ((pre ++ [r]).dropLast.filter isResult = []) ∧
    (∃ e, (pre ++ [r]).getLast? = some e ∧ isResult e = true) := by
  refine ⟨?_, ?_, r, ?_, hr⟩
  · simp [List.filter_append, hpre, List.filter, hr]
  · simpa [List.dropLast_concat] using hpre
  · simp [List.getLast?_concat]

/-- CLAIM C1. For every run started with a valid Session Input, under any
LLM availability, any agent emissions and any agent outcome, the emitted
line sequence contains exactly one Result Event, it is the last line, and
no Result Event occurs before the last line (so every Progress Event
precedes the Result Event). -/
theorem main_run_single_result (carrier portal_url : String) (key : Option String)
    (d : InputData) (llm : Except String Unit) (agent : AgentRun) :
    (((main_run carrier portal_url key (.valid d) llm agent).1.filter isResult).length = 1) ∧
    ((main_run carrier portal_url key (.valid d) llm agent).1.dropLast.filter isResult = []) ∧
    (∃ e, (main_run carrier portal_url key (.valid d) llm agent).1.getLast? = some e ∧
      isResult e = true) := by
  obtain ⟨emitted, outcome⟩ := agent
  have hmap := filter_isResult_map_progress emitted
  have hstart : ∀ s : String, ([Event.progress s 0]).filter isResult = [] := by
    intro s
    simp [isResult]
  cases llm with
  | error e =>
    have h := trace_shape_spec
      ((if pyTruthyStrOpt key then [Event.progress "CAPTCHA solver enabled (CapSolver)" 0]
        else [Event.progress "CAPTCHA solver not configured (set CAPSOLVER_API_KEY)" 0]) ++
        [Event.progress "Initializing Browser Use agent" 5])
      (.result false none (some e)) ?_ rfl
    · simpa [main_run, read_input_from_stdin, run_browser_use, List.append_assoc] using h
    · split <;> simp [isResult]
  | ok u =>
    cases outcome with
    | ok result_text =>
      have h := trace_shape_spec
        ((if pyTruthyStrOpt key then [Event.progress "CAPTCHA solver enabled (CapSolver)" 0]
          else [Event.progress "CAPTCHA solver not configured (set CAPSOLVER_API_KEY)" 0]) ++
          ([Event.progress "Initializing Browser Use agent" 5,
            Event.progress "Building navigation task" 10,
            Event.progress "Starting browser automation" 15,
            Event.progress "Navigating to carrier portal" 25,
            Event.progress "Logging into portal" 35,
            Event.progress "Filling quote form" 50] ++
           (emitted.map (fun p => Event.progress p.1 p.2)) ++
           [Event.progress "Extracting quote data" 85,
            Event.progress "Quote extraction complete" 100]))
        (.result true (some (extract_quote_data result_text carrier)) none) ?_ rfl
      · simpa [main_run, read_input_from_stdin, run_browser_use, List.append_assoc] using h
      · simp only [List.filter_append, hmap]
        split <;> simp [isResult]
    | error msg =>
      have h := trace_shape_spec
        ((if pyTruthyStrOpt key then [Event.progress "CAPTCHA solver enabled (CapSolver)" 0]
          else [Event.progress "CAPTCHA solver not configured (set CAPSOLVER_API_KEY)" 0]) ++
          ([Event.progress "Initializing Browser Use agent" 5,
            Event.progress "Building navigation task" 10,
            Event.progress "Starting browser automation" 15,
            Event.progress "Navigating to carrier portal" 25,
            Event.progress "Logging into portal" 35,
            Event.progress "Filling quote form" 50] ++
           (emitted.map (fun p => Event.progress p.1 p.2))))
        (.result false none (some (categorize_error msg))) ?_ rfl
      · simpa [main_run, read_input_from_stdin, run_browser_use, List.append_assoc] using h
      · simp only [List.filter_append, hmap]
        split <;> simp [isResult]

/-- CLAIM C2 (counterexample). The claim says a message containing
"ETIMEDOUT" yields category timeout; in the code the timeout keyword group
is exactly "timeout" and "timed out", and the string "etimedout" contains
neither (the run of letters "timedout" has no space and is not "timeout"),
nor any other keyword, so "ETIMEDOUT" is returned verbatim, uncategorized. -/
theorem categorize_error_etimedout_verbatim :
    categorize_error "ETIMEDOUT" = "ETIMEDOUT" ∧
    categorize_error "ETIMEDOUT" ≠ "timeout: ETIMEDOUT" := by
  constructor
  · decide
  · decide

/-- CLAIM C2 (amended). The Error Classifier maps a failed run message to
exactly one category by first matching keyword group in the fixed priority
order authentication, captcha, element/navigation, timeout, connectivity,
verbatim, prefixing the category onto the emitted error string: a message
containing "401 unauthorized" yields login failed; a message containing
"timed out" yields timeout; a message containing "ETIMEDOUT" alone matches
no keyword group (the timeout keywords are "timeout" and "timed out") and,
like "unrecognized widget xyz", is returned verbatim, uncategorized. -/
theorem categorize_error_priority :
    (categorize_error "401 unauthorized" = "login failed: 401 unauthorized") ∧
    (categorize_error "unrecognized widget xyz" = "unrecognized widget xyz") ∧
    (categorize_error "Agent run timed out" = "timeout: Agent run timed out") ∧
    (∀ msg, matchesAny login_terms (pyLower msg) = true →
      categorize_error msg = "login failed: " ++ msg) ∧
    (∀ msg, matchesAny login_terms (pyLower msg) = false →
      matchesAny captcha_terms (pyLower msg) = true →
      categorize_error msg = "captcha detected: " ++ msg) ∧
    (∀ msg, matchesAny login_terms (pyLower msg) = false →
      matchesAny captcha_terms (pyLower msg) = false →
      matchesAny element_terms (pyLower msg) = true →
      categorize_error msg = "element not found: " ++ msg) ∧
    (∀ msg, matchesAny login_terms (pyLower msg) = false →
      matchesAny captcha_terms (pyLower msg) = false →
      matchesAny element_terms (pyLower msg) = false →
      matchesAny timeout_terms (pyLower msg) = true →
      categorize_error msg = "timeout: " ++ msg) ∧
    (∀ msg, matchesAny login_terms (pyLower msg) = false →
      matchesAny captcha_terms (pyLower msg) = false →
      matchesAny element_terms (pyLower msg) = false →
      matchesAny timeout_terms (pyLower msg) = false →
      matchesAny connection_terms (pyLower msg) = true →
      categorize_error msg = "connection failed: " ++ msg) ∧
    (∀ msg, matchesAny login_terms (pyLower msg) = false →
      matchesAny captcha_terms (pyLower msg) = false →
      matchesAny element_terms (pyLower msg) = false →
      matchesAny timeout_terms (pyLower msg) = false →
      matchesAny connection_terms (pyLower msg) = false →
      categorize_error msg = msg) := by
  refine ⟨by decide, by decide, by decide, ?_, ?_, ?_, ?_, ?_, ?_⟩
  · intro msg h1
    simp [categorize_error, h1]
  · intro msg h1 h2
    simp [categorize_error, h1, h2]
  · intro msg h1 h2 h3
    simp [categorize_error, h1, h2, h3]
  · intro msg h1 h2 h3 h4
    simp [categorize_error, h1, h2, h3, h4]
  · intro msg h1 h2 h3 h4 h5
    simp [categorize_error, h1, h2, h3, h4, h5]
  · intro msg h1 h2 h3 h4 h5
    simp [categorize_error, h1, h2, h3, h4, h5]

/-- Witness for the amended C2 theorem: the timeout leg applied at the
concrete message "request timed out". -/
theorem categorize_error_priority_w :
    categorize_error "request timed out" = "timeout: " ++ "request timed out" :=
  categorize_error_priority.2.2.2.2.2.2.1 "request timed out"
    (by decide) (by decide) (by decide) (by decide)

set_option maxRecDepth 100000 in
/-- CLAIM C3 (counterexample). The claim that the compiled task text never
contains the literal password string fails when the password collides with
text the compiler necessarily emits: for the password "IMPORTANT" (with an
MFA code present), the output contains the password string. -/
theorem build_navigation_task_contains_password :
    strContains
      (build_navigation_task "progressive" "https://agents.progressive.com"
        ⟨none, none, none, none⟩ ⟨"agentuser", "IMPORTANT", some "123456"⟩)
      "IMPORTANT" = true := by
  decide

/-- CLAIM C3 (amended). The Task Prompt Compiler never interpolates the
password or MFA code: its output is a function of the carrier, portal URL,
client data and username alone, so two credential records differing only
in password and MFA code compile to the same instruction text. -/
theorem build_navigation_task_password_free (carrier portal_url : String)
    (client_data : ClientData) (username p₁ p₂ : String)
    (m₁ m₂ : Option String) :
    build_navigation_task carrier portal_url client_data ⟨username, p₁, m₁⟩ =
      build_navigation_task carrier portal_url client_data ⟨username, p₂, m₂⟩ := rfl

set_option maxRecDepth 1000000 in
/-- CLAIM C4. For the agent text "annual premium: $1,200.00" (no monthly
phrasing), Quote Extraction returns premiumAnnual = 1200.0 and
premiumMonthly = 100.0; in general, whenever the annual pattern list
parses a non-zero value and the monthly pattern list finds none, the
returned monthly premium is the annual value divided by 12 rounded to two
decimal places. -/
theorem extract_quote_data_annual_only :
    ((extract_quote_data "annual premium: $1,200.00" "progressive").premiumAnnual.map
       PyNum.toRat = some 1200) ∧
    ((extract_quote_data "annual premium: $1,200.00" "progressive").premiumMonthly.map
       PyNum.toRat = some 100) ∧
    (∀ text carrier a,
      find_premium annual_patterns (text.data.map Char.toLower) = some a →
      a.num ≠ 0 →
      find_premium monthly_patterns (text.data.map Char.toLower) = none →
      (extract_quote_data text carrier).premiumMonthly = some (roundDiv2 a 12)) := by
  refine ⟨?_, ?_, ?_⟩
  · have h : (extract_quote_data "annual premium: $1,200.00" "progressive").premiumAnnual
        = some ⟨120000, 100⟩ := by decide
    rw [h]
    show some (PyNum.toRat ⟨120000, 100⟩) = some 1200
    norm_num [PyNum.toRat]
  · have h : (extract_quote_data "annual premium: $1,200.00" "progressive").premiumMonthly
        = some ⟨10000, 100⟩ := by decide
    rw [h]
    show some (PyNum.toRat ⟨10000, 100⟩) = some 100
    norm_num [PyNum.toRat]
  · intro text carrier a ha hnum hm
    simp only [extract_quote_data, ha, hm]
    simp [pyTruthyNum, hnum]

set_option maxRecDepth 1000000 in
/-- Witness for C4: the derivation leg applied at the concrete text, whose
annual parse is 1200.00 (the fraction 120000/100) and whose monthly parse
is empty. -/
theorem extract_quote_data_annual_only_w :
    (extract_quote_data "annual premium: $1,200.00" "progressive").premiumMonthly
      = some (roundDiv2 ⟨120000, 100⟩ 12) :=
  extract_quote_data_annual_only.2.2 "annual premium: $1,200.00" "progressive"
    ⟨120000, 100⟩ (by decide) (by decide) (by decide)

/-- CLAIM C5. For the empty agent text (the str(result) if result else ""
coercion maps an absent result to the empty string), Quote Extraction
returns a QuoteRecord with both premium fields absent and the raw agent
response absent; and for every input it returns a QuoteRecord
unconditionally (the embedding is a total function; every fallible step
of the source, the regex parse and float(), is handled inside it), with
the carrier code always carried through. -/
theorem extract_quote_data_empty :
    (∀ carrier, (extract_quote_data "" carrier).premiumAnnual = none ∧
      (extract_quote_data "" carrier).premiumMonthly = none ∧
      (extract_quote_data "" carrier).agentResponse = none) ∧
    (∀ text carrier, (extract_quote_data text carrier).carrierCode = carrier ∧
      (extract_quote_data text carrier).coverages = [] ∧
      (extract_quote_data text carrier).deductibles = []) := by
  constructor
  · intro carrier
    exact ⟨rfl, rfl, rfl⟩
  · intro text carrier
    exact ⟨rfl, rfl, rfl⟩

set_option maxRecDepth 1000000 in
/-- CLAIM C10. The annual-to-monthly derivation is gated on Python
truthiness of the parsed floats, not on their presence: for the text
"annual premium: $1200, monthly premium: $0" the monthly pattern parses
exactly 0, which is falsy, so the returned monthly premium is the derived
1200 / 12 = 100.0 overriding the parsed 0; and a parsed annual of exactly
0 is falsy and suppresses the derivation entirely (the parsed monthly
value, present or not, is returned unchanged). -/
theorem extract_quote_data_truthiness_gate :
    (find_premium monthly_patterns
       ("annual premium: $1200, monthly premium: $0".data.map Char.toLower) = some ⟨0, 1⟩) ∧
    ((extract_quote_data "annual premium: $1200, monthly premium: $0"
       "progressive").premiumMonthly.map PyNum.toRat = some 100) ∧
    ((extract_quote_data "annual premium: $0" "progressive").premiumAnnual = some ⟨0, 1⟩ ∧
     (extract_quote_data "annual premium: $0" "progressive").premiumMonthly = none) ∧
    (∀ text carrier a m,
      find_premium annual_patterns (text.data.map Char.toLower) = some a → a.num ≠ 0 →
      find_premium monthly_patterns (text.data.map Char.toLower) = some m → m.num = 0 →
      (extract_quote_data text carrier).premiumMonthly = some (roundDiv2 a 12)) ∧
    (∀ text carrier a,
      find_premium annual_patterns (text.data.map Char.toLower) = some a → a.num = 0 →
      (extract_quote_data text carrier).premiumMonthly =
        find_premium monthly_patterns (text.data.map Char.toLower)) := by
  refine ⟨by decide, ?_, ⟨by decide, by decide⟩, ?_, ?_⟩
  · have h : (extract_quote_data "annual premium: $1200, monthly premium: $0"
        "progressive").premiumMonthly = some ⟨10000, 100⟩ := by decide
    rw [h]
    show some (PyNum.toRat ⟨10000, 100⟩) = some 100
    norm_num [PyNum.toRat]
  · intro text carrier a m ha hnum hm hm0
    simp only [extract_quote_data, ha, hm]
    simp [pyTruthyNum, hnum, hm0]
  · intro text carrier a ha ha0
    simp only [extract_quote_data, ha]
    simp [pyTruthyNum, ha0]

set_option maxRecDepth 1000000 in
/-- Witness for C10: the override leg applied at the concrete text whose
annual parse is 1200 and whose monthly parse is exactly 0. -/
theorem extract_quote_data_truthiness_gate_w :
    (extract_quote_data "annual premium: $1200, monthly premium: $0"
      "progressive").premiumMonthly = some (roundDiv2 ⟨1200, 1⟩ 12) :=
  extract_quote_data_truthiness_gate.2.2.2.1 "annual premium: $1200, monthly premium: $0"
    "progressive" ⟨1200, 1⟩ ⟨0, 1⟩ (by decide) (by decide) (by decide) (by decide)

/-- CLAIM C6. With no provider credential configured, each of the three
CAPTCHA resolution flows returns no token, makes zero network requests,
performs no sleeps, and (apart from the progress line of the checkbox
flow) emits nothing. -/
theorem capsolver_no_key_no_network :
    (∀ (page_url site_key : String) (net : CapsolverNet),
      solve_recaptcha_v2 none page_url site_key net =
        ⟨none, 0, [], [("CAPTCHA detected but CAPSOLVER_API_KEY not set", 40)]⟩) ∧
    (∀ (page_url site_key action : String) (net : CapsolverNet),
      solve_recaptcha_v3 none page_url site_key action net = ⟨none, 0, [], []⟩) ∧
    (∀ (page_url site_key : String) (net : CapsolverNet),
      solve_turnstile none page_url site_key net = ⟨none, 0, [], []⟩) :=
  ⟨fun _ _ _ => rfl, fun _ _ _ _ => rfl, fun _ _ _ => rfl⟩

theorem capsolver_poll_bounds (tokOf : PollResp → Option String)
    (readyEv failedEv timeoutEv : List (String × Nat))
    (raiseEv : String → List (String × Nat))
    (progressAt : Nat → List (String × Nat)) (net : CapsolverNet) :
    ∀ r i,
      (capsolver_poll tokOf readyEv failedEv timeoutEv raiseEv progressAt
        net i r).sleeps.length ≤ r ∧
      (∀ s ∈ (capsolver_poll tokOf readyEv failedEv timeoutEv raiseEv progressAt
        net i r).sleeps, s = 2) ∧
      (capsolver_poll tokOf readyEv failedEv timeoutEv raiseEv progressAt
        net i r).requests =
        (capsolver_poll tokOf readyEv failedEv timeoutEv raiseEv progressAt
          net i r).sleeps.length := by
  intro r
  induction r with
  | zero =>
    intro i
    simp [capsolver_poll]
  | succ n ih =>
    intro i
    simp only [capsolver_poll]
    cases hnet : net.getTaskResult i with
    | raise msg => simp
    | ok pr =>
      by_cases h1 : ((pr.status == some "ready") && pyTruthyStrOpt (tokOf pr)) = true
      · simp [h1]
      · rw [Bool.not_eq_true] at h1
        by_cases h2 : (pr.status == some "failed") = true
        · simp [h1, h2]
        · rw [Bool.not_eq_true] at h2
          have h := ih (i + 1)
          simp [h1, h2]
          exact ⟨h.1, fun s hs => h.2.1 s hs, h.2.2⟩

theorem capsolver_poll_stop (tokOf : PollResp → Option String)
    (readyEv failedEv timeoutEv : List (String × Nat))
    (raiseEv : String → List (String × Nat))
    (progressAt : Nat → List (String × Nat)) (net : CapsolverNet) :
    ∀ j r i, j < r →
      (∀ k, k < j → pollContinues tokOf (net.getTaskResult (i + k)) = true) →
      ∀ pr, net.getTaskResult (i + j) = .ok pr →
      (((pr.status == some "ready") = true → pyTruthyStrOpt (tokOf pr) = true →
        (capsolver_poll tokOf readyEv failedEv timeoutEv raiseEv progressAt
          net i r).token = tokOf pr ∧
        (capsolver_poll tokOf readyEv failedEv timeoutEv raiseEv progressAt
          net i r).sleeps.length = j + 1) ∧
       ((pr.status == some "failed") = true →
        (capsolver_poll tokOf readyEv failedEv timeoutEv raiseEv progressAt
          net i r).token = none ∧
        (capsolver_poll tokOf readyEv failedEv timeoutEv raiseEv progressAt
          net i r).sleeps.length = j + 1)) := by
  intro j
  induction j with
  | zero =>
    intro r i hr _ pr hpr
    cases r with
    | zero => omega
    | succ n =>
      rw [Nat.add_zero] at hpr
      constructor
      · intro hst htok
        simp [capsolver_poll, hpr, hst, htok]
      · intro hst
        have hready : (pr.status == some "ready") = false := by
          have : pr.status = some "failed" := by
            simpa using hst
          simp [this]
        simp [capsolver_poll, hpr, hready, hst]
  | succ jn ih =>
    intro r i hr hcont pr hpr
    cases r with
    | zero => omega
    | succ n =>
      have hc0 : pollContinues tokOf (net.getTaskResult i) = true := by
        have := hcont 0 (Nat.succ_pos _)
        simpa using this
      cases hnet : net.getTaskResult i with
      | raise msg =>
        rw [hnet] at hc0
        simp [pollContinues] at hc0
      | ok pr0 =>
        rw [hnet] at hc0
        simp only [pollContinues, Bool.and_eq_true, Bool.not_eq_eq_eq_not,
          Bool.not_true] at hc0
        have h1 : ((pr0.status == some "ready") && pyTruthyStrOpt (tokOf pr0)) = false :=
          hc0.1
        have h2 : (pr0.status == some "failed") = false := hc0.2
        have hpr' : net.getTaskResult (i + 1 + jn) = .ok pr := by
          rw [show i + 1 + jn = i + (jn + 1) by omega]
          exact hpr
        have hcont' : ∀ k, k < jn →
            pollContinues tokOf (net.getTaskResult (i + 1 + k)) = true := by
          intro k hk
          rw [show i + 1 + k = i + (k + 1) by omega]
          exact hcont (k + 1) (by omega)
        have h := ih n (i + 1) (by omega) hcont' pr hpr'
        constructor
        · intro hst htok
          have hh := h.1 hst htok
          simp [capsolver_poll, hnet, h1, h2, hh.1, hh.2]
        · intro hst
          have hh := h.2 hst
          simp [capsolver_poll, hnet, h1, h2, hh.1, hh.2]

theorem capsolver_poll_exhaust (tokOf : PollResp → Option String)
    (readyEv failedEv timeoutEv : List (String × Nat))
    (raiseEv : String → List (String × Nat))
    (progressAt : Nat → List (String × Nat)) (net : CapsolverNet) :
    ∀ r i,
      (∀ k, k < r → pollContinues tokOf (net.getTaskResult (i + k)) = true) →
      (capsolver_poll tokOf readyEv failedEv timeoutEv raiseEv progressAt
        net i r).token = none ∧
      (capsolver_poll tokOf readyEv failedEv timeoutEv raiseEv progressAt
        net i r).sleeps.length = r := by
  intro r
  induction r with
  | zero =>
    intro i _
    simp [capsolver_poll]
  | succ n ih =>
    intro i hcont
    have hc0 : pollContinues tokOf (net.getTaskResult i) = true := by
      have := hcont 0 (Nat.succ_pos _)
      simpa using this
    cases hnet : net.getTaskResult i with
    | raise msg =>
      rw [hnet] at hc0
      simp [pollContinues] at hc0
    | ok pr0 =>
      rw [hnet] at hc0
      simp only [pollContinues, Bool.and_eq_true, Bool.not_eq_eq_eq_not,
        Bool.not_true] at hc0
      have hcont' : ∀ k, k < n →
          pollContinues tokOf (net.getTaskResult (i + 1 + k)) = true := by
        intro k hk
        rw [show i + 1 + k = i + (k + 1) by omega]
        exact hcont (k + 1) (by omega)
      have h := ih (i + 1) hcont'
      simp [capsolver_poll, hnet, hc0.1, hc0.2, h.1, h.2]

theorem capsolver_poll_requests_le (tokOf : PollResp → Option String)
    (readyEv failedEv timeoutEv : List (String × Nat))
    (raiseEv : String → List (String × Nat))
    (progressAt : Nat → List (String × Nat)) (net : CapsolverNet) (r i : Nat) :
    (capsolver_poll tokOf readyEv failedEv timeoutEv raiseEv progressAt
      net i r).requests ≤ r := by
  have h := capsolver_poll_bounds tokOf readyEv failedEv timeoutEv raiseEv progressAt net r i
  omega

theorem pollFlowSpec_of_eq (tokOf : PollResp → Option String)
    (readyEv failedEv timeoutEv : List (String × Nat))
    (raiseEv : String → List (String × Nat))
    (progressAt : Nat → List (String × Nat))
    (maxAttempts : Nat) (flow : CapsolverNet → SolveOutcome)
    (hflow : ∀ net (cr : CreateResp), net.createTask = .ok cr → cr.errorId = 0 →
      pyTruthyStrOpt cr.taskId = true →
      (flow net).token = (capsolver_poll tokOf readyEv failedEv timeoutEv raiseEv
        progressAt net 0 maxAttempts).token ∧
      (flow net).sleeps = (capsolver_poll tokOf readyEv failedEv timeoutEv raiseEv
        progressAt net 0 maxAttempts).sleeps ∧
      (flow net).requests = (capsolver_poll tokOf readyEv failedEv timeoutEv raiseEv
        progressAt net 0 maxAttempts).requests + 1) :
    PollFlowSpec flow tokOf maxAttempts := by
  intro net cr hcr herr htid
  obtain ⟨htok, hsl, hreq⟩ := hflow net cr hcr herr htid
  have hb := capsolver_poll_bounds tokOf readyEv failedEv timeoutEv raiseEv progressAt
    net maxAttempts 0
  refine ⟨⟨?_, ?_, ?_⟩, ?_, ?_⟩
  · rw [hsl]
    exact hb.1
  · rw [hsl]
    exact hb.2.1
  · rw [hreq, hsl, hb.2.2]
  · intro j pr hj hcont hpr
    have h := capsolver_poll_stop tokOf readyEv failedEv timeoutEv raiseEv progressAt
      net j maxAttempts 0 hj
      (fun k hk => by
        rw [Nat.zero_add]
        exact hcont k hk)
      pr (by rw [Nat.zero_add]; exact hpr)
    constructor
    · intro hst htk
      exact ⟨by rw [htok]; exact (h.1 hst htk).1, by rw [hsl]; exact (h.1 hst htk).2⟩
    · intro hst
      exact ⟨by rw [htok]; exact (h.2 hst).1, by rw [hsl]; exact (h.2 hst).2⟩
  · intro hcont
    have h := capsolver_poll_exhaust tokOf readyEv failedEv timeoutEv raiseEv progressAt
      net maxAttempts 0
      (fun k hk => by
        rw [Nat.zero_add]
        exact hcont k hk)
    exact ⟨by rw [htok]; exact h.1, by rw [hsl]; exact h.2⟩

/-- CLAIM C7. Each CAPTCHA resolution flow polls the provider on a fixed
2-second interval for a bounded number of attempts (60 for the checkbox
and managed flows, 30 for the scored flow); on a "ready" status it
returns the provider token field of that flow; on a "failed" status it
returns no token immediately, after only the attempts made so far; on
exhausting all attempts it returns no token; and unconditionally no flow
ever makes more requests than one create plus its attempt budget. -/
theorem capsolver_flows_poll_contract :
    (∀ (apiKey : Option String) (page_url site_key action : String),
      pyTruthyStrOpt apiKey = true →
      PollFlowSpec (fun net => solve_recaptcha_v2 apiKey page_url site_key net)
        (fun pr => pr.gRecaptchaResponse) 60 ∧
      PollFlowSpec (fun net => solve_recaptcha_v3 apiKey page_url site_key action net)
        (fun pr => pr.gRecaptchaResponse) 30 ∧
      PollFlowSpec (fun net => solve_turnstile apiKey page_url site_key net)
        (fun pr => pr.solutionToken) 60) ∧
    (∀ (apiKey : Option String) (page_url site_key action : String) (net : CapsolverNet),
      (solve_recaptcha_v2 apiKey page_url site_key net).requests ≤ 61 ∧
      (solve_recaptcha_v3 apiKey page_url site_key action net).requests ≤ 31 ∧
      (solve_turnstile apiKey page_url site_key net).requests ≤ 61) := by
  constructor
  · intro apiKey page_url site_key action hkey
    refine ⟨?_, ?_, ?_⟩
    · exact pollFlowSpec_of_eq (fun pr => pr.gRecaptchaResponse)
        [("reCAPTCHA v2 solved successfully", 45)]
        [("reCAPTCHA solving failed", 42)]
        [("reCAPTCHA solving timed out", 42)]
        (fun msg => [("CAPTCHA solve error: " ++ msg, 42)])
        (fun i => if i % 5 = 0 then
          [("Solving reCAPTCHA... (" ++ toString (i * 2) ++ "s)", 42 + i / 10)] else [])
        60 _
        (fun net cr hcr herr htid => by
          refine ⟨?_, ?_, ?_⟩ <;> simp [solve_recaptcha_v2, hkey, hcr, herr, htid])
    · exact pollFlowSpec_of_eq (fun pr => pr.gRecaptchaResponse)
        [("reCAPTCHA v3 solved successfully", 45)]
        [] [] (fun _ => []) (fun _ => []) 30 _
        (fun net cr hcr herr htid => by
          refine ⟨?_, ?_, ?_⟩ <;> simp [solve_recaptcha_v3, hkey, hcr, herr, htid])
    · exact pollFlowSpec_of_eq (fun pr => pr.solutionToken)
        [("Turnstile solved successfully", 45)]
        [] [] (fun _ => []) (fun _ => []) 60 _
        (fun net cr hcr herr htid => by
          refine ⟨?_, ?_, ?_⟩ <;> simp [solve_turnstile, hkey, hcr, herr, htid])
  · intro apiKey page_url site_key action net
    refine ⟨?_, ?_, ?_⟩
    · by_cases hkey : pyTruthyStrOpt apiKey = true
      · cases hnet : net.createTask with
        | raise msg => simp [solve_recaptcha_v2, hkey, hnet]
        | ok cr =>
          by_cases herr : cr.errorId = 0
          · by_cases htid : pyTruthyStrOpt cr.taskId = true
            · have heq : ((solve_recaptcha_v2 apiKey page_url site_key net) : SolveOutcome).requests =
                  (capsolver_poll (fun pr => pr.gRecaptchaResponse)
                  [("reCAPTCHA v2 solved successfully", 45)]
                  [("reCAPTCHA solving failed", 42)]
                  [("reCAPTCHA solving timed out", 42)]
                  (fun msg => [("CAPTCHA solve error: " ++ msg, 42)])
                  (fun i => if i % 5 = 0 then
                    [("Solving reCAPTCHA... (" ++ toString (i * 2) ++ "s)", 42 + i / 10)]
                   else [])
                  net 0 60).requests + 1 := by
                simp [solve_recaptcha_v2, hkey, hnet, herr, htid]
              rw [heq]
              have h := capsolver_poll_requests_le (fun pr => pr.gRecaptchaResponse)
                  [("reCAPTCHA v2 solved successfully", 45)]
                  [("reCAPTCHA solving failed", 42)]
                  [("reCAPTCHA solving timed out", 42)]
                  (fun msg => [("CAPTCHA solve error: " ++ msg, 42)])
                  (fun i => if i % 5 = 0 then
                    [("Solving reCAPTCHA... (" ++ toString (i * 2) ++ "s)", 42 + i / 10)]
                   else [])
                net 60 0
              omega
            · simp [solve_recaptcha_v2, hkey, hnet, herr, htid]
          · simp [solve_recaptcha_v2, hkey, hnet, herr]
      · simp [solve_recaptcha_v2, hkey]
    · by_cases hkey : pyTruthyStrOpt apiKey = true
      · cases hnet : net.createTask with
        | raise msg => simp [solve_recaptcha_v3, hkey, hnet]
        | ok cr =>
          by_cases herr : cr.errorId = 0
          · by_cases htid : pyTruthyStrOpt cr.taskId = true
            · have heq : ((solve_recaptcha_v3 apiKey page_url site_key action net) : SolveOutcome).requests =
                  (capsolver_poll (fun pr => pr.gRecaptchaResponse)
                  [("reCAPTCHA v3 solved successfully", 45)]
                  [] [] (fun _ => []) (fun _ => [])
                  net 0 30).requests + 1 := by
                simp [solve_recaptcha_v3, hkey, hnet, herr, htid]
              rw [heq]
              have h := capsolver_poll_requests_le (fun pr => pr.gRecaptchaResponse)
                  [("reCAPTCHA v3 solved successfully", 45)]
                  [] [] (fun _ => []) (fun _ => [])
                net 30 0
              omega
            · simp [solve_recaptcha_v3, hkey, hnet, herr, htid]
          · simp [solve_recaptcha_v3, hkey, hnet, herr]
      · simp [solve_recaptcha_v3, hkey]
    · by_cases hkey : pyTruthyStrOpt apiKey = true
      · cases hnet : net.createTask with
        | raise msg => simp [solve_turnstile, hkey, hnet]
        | ok cr =>
          by_cases herr : cr.errorId = 0
          · by_cases htid : pyTruthyStrOpt cr.taskId = true
            · have heq : ((solve_turnstile apiKey page_url site_key net) : SolveOutcome).requests =
                  (capsolver_poll (fun pr => pr.solutionToken)
                  [("Turnstile solved successfully", 45)]
                  [] [] (fun _ => []) (fun _ => [])
                  net 0 60).requests + 1 := by
                simp [solve_turnstile, hkey, hnet, herr, htid]
              rw [heq]
              have h := capsolver_poll_requests_le (fun pr => pr.solutionToken)
                  [("Turnstile solved successfully", 45)]
                  [] [] (fun _ => []) (fun _ => [])
                net 60 0
              omega
            · simp [solve_turnstile, hkey, hnet, herr, htid]
          · simp [solve_turnstile, hkey, hnet, herr]
      · simp [solve_turnstile, hkey]

/-- Witness for C7: with a configured key, a successful create and an
immediately ready response carrying a token, the checkbox flow returns
that token after exactly one poll sleep. -/
theorem capsolver_flows_poll_contract_w :
    (solve_recaptcha_v2 (some "key") "https://portal.example" "sk"
      ⟨.ok ⟨0, none, some "task-1"⟩,
       fun _ => .ok ⟨some "ready", some "TOK", some "TOK"⟩⟩).token = some "TOK" ∧
    (solve_recaptcha_v2 (some "key") "https://portal.example" "sk"
      ⟨.ok ⟨0, none, some "task-1"⟩,
       fun _ => .ok ⟨some "ready", some "TOK", some "TOK"⟩⟩).sleeps.length = 1 := by
  have h := (capsolver_flows_poll_contract.1 (some "key") "https://portal.example" "sk"
    "submit" (by decide)).1
    ⟨.ok ⟨0, none, some "task-1"⟩,
     fun _ => .ok ⟨some "ready", some "TOK", some "TOK"⟩⟩
    ⟨0, none, some "task-1"⟩ rfl rfl (by decide)
  have h2 := (h.2.1 0 ⟨some "ready", some "TOK", some "TOK"⟩ (by omega)
    (fun k hk => absurd hk (Nat.not_lt_zero k)) rfl).1 (by decide) (by decide)
  exact ⟨h2.1, h2.2⟩

/-- CLAIM C8 (counterexample). The detector does not always stop at the
first matching marker: on a page whose scored (type B) script marker
matches (its src contains "render=") but whose scored resolution yields no
token (here: no provider credential), the cascade continues past the match
into the unsupported-kind check and returns the hCaptcha failure, having
also invoked the scored resolution flow. -/
theorem solve_captcha_not_first_match :
    strContains "https://www.google.com/recaptcha/api.js?render=KEY123" "render=" = true ∧
    solve_captcha
      ⟨"https://portal.example", none,
       some (some "https://www.google.com/recaptcha/api.js?render=KEY123"), none, true⟩
      ⟨none, ⟨.ok ⟨0, none, none⟩, fun _ => .ok ⟨none, none, none⟩⟩,
             ⟨.ok ⟨0, none, none⟩, fun _ => .ok ⟨none, none, none⟩⟩,
             ⟨.ok ⟨0, none, none⟩, fun _ => .ok ⟨none, none, none⟩⟩⟩ =
      (⟨false, none,
        some "hCaptcha detected but not yet supported. Manual intervention may be needed."⟩,
       [.v3 "https://portal.example" "KEY123" "submit"]) := by
  constructor
  · decide
  · decide

/-- CLAIM C8 (amended). The detector inspects the page in the fixed
priority order checkbox/invisible (A), scored (B), managed (C), known
unsupported kind, and stops at the first match, except that a type-B match
whose resolution yields no token falls through to the later checks (and a
type-A or type-C marker without a truthy site key attribute is skipped);
a page with no matching markers returns success with the no-challenge
message without invoking any resolution flow, and a page whose only
marker is the unsupported kind returns its explicit failure, also without
any resolution call. -/
theorem solve_captcha_priority :
    (∀ (url : String) (env : CapEnv) (hc : Bool),
      solve_captcha ⟨url, none, none, none, hc⟩ env =
        if hc then
          (⟨false, none,
            some "hCaptcha detected but not yet supported. Manual intervention may be needed."⟩,
           [])
        else (⟨true, some "No CAPTCHA detected on this page", none⟩, [])) ∧
    (∀ (page : Page) (env : CapEnv) (attr : Option String),
      page.recaptcha_v2 = some attr → pyTruthyStrOpt attr = true →
      solve_captcha page env =
        ((if pyTruthyStrOpt
            (solve_recaptcha_v2 env.apiKey page.url (attr.getD "") env.v2net).token then
           ⟨true, some "reCAPTCHA v2 solved and token injected", none⟩
         else ⟨false, none, some "Failed to solve reCAPTCHA v2"⟩),
         [.v2 page.url (attr.getD "")])) ∧
    (∀ (page : Page) (env : CapEnv) (srcAttr : Option String),
      page.recaptcha_v2 = none → page.recaptcha_v3_src = some srcAttr →
      pyTruthyStrOpt srcAttr = true → strContains (srcAttr.getD "") "render=" = true →
      (pyTruthyStrOpt (solve_recaptcha_v3 env.apiKey page.url
          (extractRenderKey (srcAttr.getD "")) "submit" env.v3net).token = true →
        solve_captcha page env =
          (⟨true, some "reCAPTCHA v3 solved, token stored in window.captchaToken", none⟩,
           [.v3 page.url (extractRenderKey (srcAttr.getD "")) "submit"])) ∧
      (pyTruthyStrOpt (solve_recaptcha_v3 env.apiKey page.url
          (extractRenderKey (srcAttr.getD "")) "submit" env.v3net).token = false →
        solve_captcha page env =
          ((solve_captcha_turnstile_stage page env).1,
           .v3 page.url (extractRenderKey (srcAttr.getD "")) "submit" ::
             (solve_captcha_turnstile_stage page env).2))) ∧
    (∀ (page : Page) (env : CapEnv) (attr : Option String),
      page.recaptcha_v2 = none → page.recaptcha_v3_src = none →
      page.turnstile = some attr → pyTruthyStrOpt attr = true →
      solve_captcha page env =
        ((if pyTruthyStrOpt
            (solve_turnstile env.apiKey page.url (attr.getD "") env.tsnet).token then
           ⟨true, some "Cloudflare Turnstile solved and token injected", none⟩
         else ⟨false, none, some "Failed to solve Turnstile"⟩),
         [.turnstile page.url (attr.getD "")])) := by
  refine ⟨?_, ?_, ?_, ?_⟩
  · intro url env hc
    cases hc <;>
      simp [solve_captcha, solve_captcha_v3_stage, solve_captcha_turnstile_stage,
        solve_captcha_hcaptcha_stage]
  · intro page env attr h2 htr
    by_cases htok : pyTruthyStrOpt
        (solve_recaptcha_v2 env.apiKey page.url (attr.getD "") env.v2net).token = true
    · simp [solve_captcha, h2, htr, htok]
    · rw [Bool.not_eq_true] at htok
      simp [solve_captcha, h2, htr, htok]
  · intro page env srcAttr h2 h3 htr hrender
    constructor
    · intro htok
      simp [solve_captcha, solve_captcha_v3_stage, h2, h3, htr, hrender, htok]
    · intro htok
      simp [solve_captcha, solve_captcha_v3_stage, h2, h3, htr, hrender, htok]
  · intro page env attr h2 h3 hts htr
    by_cases htok : pyTruthyStrOpt
        (solve_turnstile env.apiKey page.url (attr.getD "") env.tsnet).token = true
    · simp [solve_captcha, solve_captcha_v3_stage, solve_captcha_turnstile_stage,
        h2, h3, hts, htr, htok]
    · rw [Bool.not_eq_true] at htok
      simp [solve_captcha, solve_captcha_v3_stage, solve_captcha_turnstile_stage,
        h2, h3, hts, htr, htok]

/-- Witness for the amended C8 theorem: the checkbox leg applied to a page
with a type-A marker and no provider credential: the v2 flow is invoked
(and only it), yields no token, and the detector reports the v2 failure. -/
theorem solve_captcha_priority_w :
    solve_captcha
      ⟨"https://portal.example", some (some "SITEKEY-A"), none, none, false⟩
      ⟨none, ⟨.ok ⟨0, none, none⟩, fun _ => .ok ⟨none, none, none⟩⟩,
             ⟨.ok ⟨0, none, none⟩, fun _ => .ok ⟨none, none, none⟩⟩,
             ⟨.ok ⟨0, none, none⟩, fun _ => .ok ⟨none, none, none⟩⟩⟩ =
      (⟨false, none, some "Failed to solve reCAPTCHA v2"⟩,
       [.v2 "https://portal.example" "SITEKEY-A"]) := by
  have h := solve_captcha_priority.2.1
    ⟨"https://portal.example", some (some "SITEKEY-A"), none, none, false⟩
    ⟨none, ⟨.ok ⟨0, none, none⟩, fun _ => .ok ⟨none, none, none⟩⟩,
           ⟨.ok ⟨0, none, none⟩, fun _ => .ok ⟨none, none, none⟩⟩,
           ⟨.ok ⟨0, none, none⟩, fun _ => .ok ⟨none, none, none⟩⟩⟩
    (some "SITEKEY-A") rfl (by decide)
  rw [h]
  decide

theorem inject_part_prefix (n : Nat) (pc : String) :
    ∃ t, (inject_part n pc).data = (pageMarkerStr n).data ++ t := by
  unfold inject_part
  split
  · exact ⟨"\n\n".data ++ (pyStrip pc).data, by simp⟩
  · exact ⟨[], by simp⟩

theorem joinParts_cons_data (part : String) (R1 : List String) :
    ∃ s, (joinParts (part :: R1)).data = part.data ++ s := by
  cases R1 with
  | nil => exact ⟨[], by simp [joinParts]⟩
  | cons p1 R1' =>
    exact ⟨"\n\n".data ++ (joinParts (p1 :: R1')).data, by simp [joinParts]⟩

theorem inject_loop_numbers (pages : List String) : ∀ (n idx : Nat),
    ((inject_page_markers_loop pages n idx).2.map PageMarker.page_number) =
      List.range' n pages.length := by
  induction pages with
  | nil =>
    intro n idx
    simp [inject_page_markers_loop]
  | cons pc rest ih =>
    intro n idx
    simp [inject_page_markers_loop, List.range'_succ, ih]

theorem inject_loop_offsets (pages : List String) : ∀ (n idx : Nat),
    ∀ mk ∈ (inject_page_markers_loop pages n idx).2,
      idx ≤ mk.start_index ∧
      mk.end_index = mk.start_index + (pageMarkerStr mk.page_number).length ∧
      ((joinParts (inject_page_markers_loop pages n idx).1).data.drop
          (mk.start_index - idx)).take (pageMarkerStr mk.page_number).length =
        (pageMarkerStr mk.page_number).data := by
  induction pages with
  | nil =>
    intro n idx mk hmk
    simp [inject_page_markers_loop] at hmk
  | cons pc rest ih =>
    intro n idx mk hmk
    have hmk' : mk = (⟨n, idx, idx + (pageMarkerStr n).length⟩ : PageMarker) ∨
        mk ∈ (inject_page_markers_loop rest (n + 1)
          (idx + (inject_part n pc).length + 2)).2 := by
      simpa [inject_page_markers_loop] using hmk
    have hfst : (inject_page_markers_loop (pc :: rest) n idx).1 =
        inject_part n pc :: (inject_page_markers_loop rest (n + 1)
          (idx + (inject_part n pc).length + 2)).1 := by
      simp [inject_page_markers_loop]
    rcases hmk' with rfl | hmk'
    · refine ⟨Nat.le_refl _, rfl, ?_⟩
      rw [hfst, Nat.sub_self, List.drop_zero]
      obtain ⟨s, hs⟩ := joinParts_cons_data (inject_part n pc)
        (inject_page_markers_loop rest (n + 1) (idx + (inject_part n pc).length + 2)).1
      obtain ⟨t, ht⟩ := inject_part_prefix n pc
      rw [hs, ht, List.append_assoc]
      exact List.take_left' rfl
    · cases rest with
      | nil =>
        simp [inject_page_markers_loop] at hmk'
      | cons q qs =>
        have h := ih (n + 1) (idx + (inject_part n pc).length + 2) mk hmk'
        refine ⟨by omega, h.2.1, ?_⟩
        rw [hfst]
        have hfst2 : (inject_page_markers_loop (q :: qs) (n + 1)
            (idx + (inject_part n pc).length + 2)).1 =
            inject_part (n + 1) q :: (inject_page_markers_loop qs (n + 2)
              (idx + (inject_part n pc).length + 2 + (inject_part (n + 1) q).length + 2)).1 := by
          simp [inject_page_markers_loop]
        have hjoin : (joinParts (inject_part n pc ::
            (inject_page_markers_loop (q :: qs) (n + 1)
              (idx + (inject_part n pc).length + 2)).1)).data =
            ((inject_part n pc).data ++ ('\n' :: '\n' :: [])) ++
              (joinParts ((inject_page_markers_loop (q :: qs) (n + 1)
                (idx + (inject_part n pc).length + 2)).1)).data := by
          rw [hfst2]
          simp [joinParts]
        rw [hjoin]
        have hlen : ((inject_part n pc).data ++ ('\n' :: '\n' :: [])).length =
            (inject_part n pc).length + 2 := by
          rw [List.length_append]
          rfl
        rw [List.drop_append_eq_append_drop]
        rw [List.drop_eq_nil_of_le (by omega), List.nil_append, hlen]
        have harith : mk.start_index - idx - ((inject_part n pc).length + 2) =
            mk.start_index - (idx + (inject_part n pc).length + 2) := by omega
        rw [harith]
        exact h.2.2

/-- CLAIM C9. Page-marker injection returns as page count the number of
placeholder-separated pages; the recorded markers are numbered 1..count in
order; every recorded marker start offset points at the exact
"--- PAGE N ---" text inside the final markdown; and a single-page
document (placeholder absent, so the split returns the whole document)
becomes the PAGE 1 marker followed by the stripped content, with one
recorded page-1 marker and page count 1. -/
theorem inject_page_markers_spec :
    (∀ md ph, (inject_page_markers md ph).2.2 = (pySplit md ph).length) ∧
    (∀ md ph, ((inject_page_markers md ph).2.1.map PageMarker.page_number) =
      List.range' 1 (inject_page_markers md ph).2.2) ∧
    (∀ md ph, ∀ mk ∈ (inject_page_markers md ph).2.1,
      ((inject_page_markers md ph).1.data.drop mk.start_index).take
        (pageMarkerStr mk.page_number).length = (pageMarkerStr mk.page_number).data) ∧
    (∀ md ph, pySplit md ph = [md] →
      inject_page_markers md ph =
        ("--- PAGE 1 ---\n\n" ++ pyStrip md, [⟨1, 0, 15⟩], 1)) := by
  refine ⟨?_, ?_, ?_, ?_⟩
  · intro md ph
    by_cases h : (pySplit md ph).length = 1
    · simp [inject_page_markers, h]
    · simp [inject_page_markers, h]
  · intro md ph
    by_cases h : (pySplit md ph).length = 1
    · simp [inject_page_markers, h, List.range'_succ]
    · simp [inject_page_markers, h, inject_loop_numbers]
  · intro md ph mk hmk
    by_cases h : (pySplit md ph).length = 1
    · simp only [inject_page_markers, h, if_true] at hmk ⊢
      simp only [List.mem_singleton] at hmk
      subst hmk
      simp only [List.drop_zero]
      have hdata : ("--- PAGE 1 ---\n\n" ++ pyStrip (((pySplit md ph).headD ""))).data =
          (pageMarkerStr 1).data ++ (('\n' :: '\n' :: []) ++
            (pyStrip ((pySplit md ph).headD "")).data) := by
        rfl
      rw [hdata]
      exact List.take_left' rfl
    · simp only [inject_page_markers, h, if_false] at hmk ⊢
      have hh := inject_loop_offsets (pySplit md ph) 1 0 mk hmk
      have := hh.2.2
      rwa [Nat.sub_zero] at this
  · intro md ph h
    have hlen : (pySplit md ph).length = 1 := by rw [h]; rfl
    simp only [inject_page_markers, hlen, if_true, h]
    rfl

/-- Witness for C9: the single-page leg applied at a document without the
Docling placeholder. -/
theorem inject_page_markers_spec_w :
    inject_page_markers "Hello World" "<!-- DOCLING_PAGE_BREAK -->" =
      ("--- PAGE 1 ---\n\n" ++ pyStrip "Hello World", [⟨1, 0, 15⟩], 1) :=
  inject_page_markers_spec.2.2.2 "Hello World" "<!-- DOCLING_PAGE_BREAK -->" (by decide)
